import Mathlib

/-
Verification of the Telnet session engine of the muktilimatiga/backend
repository against its natural-language specification.

The Python sources are shallowly embedded: strings are `List Char`,
Python's `str` helpers (strip, splitlines, replace, in, lower) are
modelled as executable Lean functions, the two regex searches that the
parsers use are run by a small backtracking matcher that mirrors the
leftmost-first semantics of `re.search` / `re.finditer` for the exact
patterns appearing in the source, and awaited I/O is modelled by passing
the device's chunk stream explicitly.
-/

set_option maxRecDepth 8000

namespace Spec2Proof

/-- Python whitespace class used by str.strip and by the regex class
backslash-s (space, tab, newline, carriage return, vertical tab, form feed). -/
def pySpace (c : Char) : Bool :=
  c == ' ' || c == '\t' || c == '\n' || c == '\r' || c == '\x0b' || c == '\x0c'

/-- Line-break characters recognised by Python str.splitlines. -/
def isLineBreakC (c : Char) : Bool :=
  c == '\n' || c == '\r' || c == '\x0b' || c == '\x0c' || c == '\x1c' ||
  c == '\x1d' || c == '\x1e' || c == '\x85' || c == '\u2028' || c == '\u2029'

def takeWhileL (p : Char → Bool) : List Char → List Char
  | [] => []
  | c :: rest => if p c then c :: takeWhileL p rest else []

def dropWhileL (p : Char → Bool) : List Char → List Char
  | [] => []
  | c :: rest => if p c then dropWhileL p rest else c :: rest

/-- Python str.strip(): remove leading and trailing whitespace. -/
def stripL (s : List Char) : List Char :=
  ((dropWhileL pySpace (dropWhileL pySpace s).reverse).reverse)

/-- Python str.startswith on character lists. -/
def startsWithL : List Char → List Char → Bool
  | [], _ => true
  | p :: ps, s =>
    match s with
    | [] => false
    | c :: cs => p == c && startsWithL ps cs

/-- Python substring test (`pat in s`). -/
def containsSubL (pat : List Char) : List Char → Bool
  | [] => pat.isEmpty
  | s@(_ :: rest) => startsWithL pat s || containsSubL pat rest

/-- Python str.lower (per-character, sufficient for the ASCII device output). -/
def toLowerL (s : List Char) : List Char := s.map Char.toLower

def splitlinesAux (cur : List Char) : List Char → List (List Char)
  | [] => if cur.isEmpty then [] else [cur.reverse]
  | '\r' :: '\n' :: rest => cur.reverse :: splitlinesAux [] rest
  | c :: rest =>
    if isLineBreakC c then cur.reverse :: splitlinesAux [] rest
    else splitlinesAux (c :: cur) rest

/-- Python str.splitlines. -/
def splitlinesPy (s : List Char) : List (List Char) := splitlinesAux [] s

/-- "sep".join(parts) on character lists. -/
def joinSep (sep : List Char) : List (List Char) → List Char
  | [] => []
  | [l] => l
  | l :: ls => l ++ sep ++ joinSep sep ls

/-- Python str.replace(pat, repl) with an explicit fuel argument; scans left
to right, replaces non-overlapping occurrences and never rescans the
replacement, exactly like CPython. Fuel `s.length` is always sufficient. -/
def replaceAllFuel (pat repl : List Char) : Nat → List Char → List Char
  | 0, s => s
  | _ + 1, [] => []
  | fuel + 1, c :: rest =>
    if startsWithL pat (c :: rest) then
      repl ++ replaceAllFuel pat repl fuel (rest.drop (pat.length - 1))
    else c :: replaceAllFuel pat repl fuel rest

/-- Python str.replace(pat, repl) for a non-empty pattern. -/
def replaceAllL (pat repl s : List Char) : List Char := replaceAllFuel pat repl s.length s

/-! ## C1: the Command Executor's output-cleaning rule

Embeds the cleaning part of `TelnetClient._execute_command`
(src/services/telnet.py lines 196-205) and of
`SwitchClient._execute_command` (src/services/switch_telnet.py lines
277-286), which are textually identical. -/

/-- The accumulation loop `for line in lines[1:-1]: ... cleaned_lines.append(stripped)`. -/
def cleanLoop (acc : List (List Char)) : List (List Char) → List (List Char)
  | [] => acc
  | l :: ls =>
    let s := stripL l
    if s.isEmpty then cleanLoop acc ls else cleanLoop (acc ++ [s]) ls

/-- Cleaning rule of `_execute_command` applied to the split lines of the raw
output: if there are more than 2 lines, strip each line strictly between the
first and the last, drop blanks and join with a newline; otherwise the
cleaned list stays empty and the join yields the empty string. -/
def cleanLines (lines : List (List Char)) : List Char :=
  joinSep ['\n'] (if 2 < lines.length then cleanLoop [] ((lines.drop 1).dropLast) else [])

/-- Full cleaning of a raw output string: `raw_output.splitlines()` then the rule. -/
def executeClean (raw : List Char) : List Char := cleanLines (splitlinesPy raw)

theorem cleanLoop_eq (ls : List (List Char)) : ∀ acc,
    cleanLoop acc ls = acc ++ (ls.map stripL).filter (fun s => !s.isEmpty) := by
  induction ls with
  | nil => intro acc; simp [cleanLoop]
  | cons l ls ih =>
    intro acc
    simp only [cleanLoop, List.map_cons, List.filter_cons]
    cases h : (stripL l).isEmpty with
    | true => simp [h, ih]
    | false => simp [h, ih, List.append_assoc]

/-- C1: for every raw command output, if the output splits into more than 2
lines the result is the lines strictly between the first (command echo) and
last (new prompt) line, each trimmed, with blank lines dropped, joined by a
newline; with 2 or fewer lines the result is the empty string. -/
theorem C1_clean_rule (lines : List (List Char)) :
    (2 < lines.length →
      cleanLines lines =
        joinSep ['\n'] ((((lines.drop 1).dropLast).map stripL).filter (fun s => !s.isEmpty)))
    ∧ (lines.length ≤ 2 → cleanLines lines = []) := by
  constructor
  · intro h
    unfold cleanLines
    rw [if_pos h, cleanLoop_eq]
    simp
  · intro h
    unfold cleanLines
    rw [if_neg (by omega)]
    rfl

/-- C1 witness: the spec's concrete example, raw lines
cmd echo / line1 / line2 / prompt, cleans to line1-newline-line2, and a
2-line output cleans to the empty string. -/
theorem C1_clean_rule_witness :
    cleanLines ["cmd echo".data, "line1".data, "line2".data, "prompt>".data] = "line1\nline2".data
    ∧ cleanLines ["cmd echo".data, "prompt>".data] = []
    ∧ executeClean "cmd echo\nline1\nline2\nprompt>".data = "line1\nline2".data := by
  refine ⟨?_, ?_, ?_⟩
  · have h := (C1_clean_rule ["cmd echo".data, "line1".data, "line2".data, "prompt>".data]).1
      (by decide)
    rw [h]; decide
  · exact (C1_clean_rule ["cmd echo".data, "prompt>".data]).2 (by decide)
  · decide

/-! ## C10: the interface formatters

Embeds `TelnetClient._format_olt_interface` and
`TelnetClient._format_onu_interface` (src/services/telnet.py lines 49-61). -/

def formatOltInterface (isC600 : Bool) (iface : List Char) : List Char :=
  if startsWithL "gpon".data iface then iface
  else (if isC600 then "gpon_olt-".data else "gpon-olt_".data) ++ iface

def formatOnuInterface (isC600 : Bool) (iface : List Char) : List Char :=
  if startsWithL "gpon".data iface then iface
  else (if isC600 then "gpon_onu-".data else "gpon-onu_".data) ++ iface

theorem startsWith_gpon_cons (rest : List Char) :
    startsWithL "gpon".data ('g' :: 'p' :: 'o' :: 'n' :: rest) = true := by
  rfl

theorem formatOlt_gpon (b : Bool) (iface : List Char) :
    startsWithL "gpon".data (formatOltInterface b iface) = true := by
  unfold formatOltInterface
  by_cases h : startsWithL "gpon".data iface
  · simp [h]
  · simp only [h, Bool.false_eq_true, if_false]
    cases b <;> exact startsWith_gpon_cons _

theorem formatOnu_gpon (b : Bool) (iface : List Char) :
    startsWithL "gpon".data (formatOnuInterface b iface) = true := by
  unfold formatOnuInterface
  by_cases h : startsWithL "gpon".data iface
  · simp [h]
  · simp only [h, Bool.false_eq_true, if_false]
    cases b <;> exact startsWith_gpon_cons _

theorem formatOlt_id (b : Bool) (iface : List Char)
    (h : startsWithL "gpon".data iface = true) : formatOltInterface b iface = iface := by
  simp [formatOltInterface, h]

theorem formatOnu_id (b : Bool) (iface : List Char)
    (h : startsWithL "gpon".data iface = true) : formatOnuInterface b iface = iface := by
  simp [formatOnuInterface, h]

/-- C10: both interface formatters leave any string already starting with
"gpon" unchanged, hence they are idempotent, and a c300-style
"gpon-onu_..." string fed to either formatter of either family is passed
through without re-prefixing. -/
theorem C10_format_idempotent (b : Bool) (iface : List Char) :
    (startsWithL "gpon".data iface = true →
      formatOltInterface b iface = iface ∧ formatOnuInterface b iface = iface)
    ∧ formatOltInterface b (formatOltInterface b iface) = formatOltInterface b iface
    ∧ formatOnuInterface b (formatOnuInterface b iface) = formatOnuInterface b iface
    ∧ formatOltInterface b ("gpon-onu_".data ++ iface) = "gpon-onu_".data ++ iface := by
  refine ⟨fun h => ⟨formatOlt_id b iface h, formatOnu_id b iface h⟩, ?_, ?_, ?_⟩
  · exact formatOlt_id b _ (formatOlt_gpon b iface)
  · exact formatOnu_id b _ (formatOnu_gpon b iface)
  · exact formatOlt_id b _ (startsWith_gpon_cons _)

/-- C10 witness: a c300-style ONU interface string passed to a c600 client's
formatters is returned unchanged. -/
theorem C10_format_witness :
    formatOltInterface true "gpon-onu_1/2/3:4".data = "gpon-onu_1/2/3:4".data
    ∧ formatOnuInterface true "gpon-onu_1/2/3:4".data = "gpon-onu_1/2/3:4".data := by
  exact (C10_format_idempotent true "gpon-onu_1/2/3:4".data).1 (by decide)

/-! ## C2: pagination handling in the read-until-prompt loops

Embeds `TelnetClient._read_until_prompt` (src/services/telnet.py lines
115-148) and `SwitchClient._read_until_prompt` together with its pagination
table and prompt regex (src/services/switch_telnet.py lines 23-29 and
117-146).  Both readers append incoming chunks to a buffer, first test their
shell-prompt regex and break, and only otherwise look for pagination: the
OLT reader for its single "--More--" marker (stripping all its
occurrences), the switch reader for the first of its four configured
markers contained in the buffer (stripping all occurrences of that one
marker type only).  The incoming byte stream is modelled as the list of
chunks that `reader.read(1024)` yields; an empty chunk means EOF. -/

/-- The OLT prompt regex, raw string `(.+[>#])\s*` anchored at the end: after
discarding trailing whitespace the buffer must end in a greater-than or hash
sign preceded by at least one non-newline character. -/
def promptMatchOlt (data : List Char) : Bool :=
  match dropWhileL pySpace data.reverse with
  | c :: d :: _ => (c == '>' || c == '#') && d != '\n'
  | _ => false

/-- `self._pagination_prompt` of TelnetClient. -/
def oltPagination : List Char := "--More--".data

/-- The accumulation loop of `_read_until_prompt` over a chunk stream.
Returns the data the loop would return together with the number of pager
spaces written to the device. -/
def readUntilPromptOlt (data : List Char) : List (List Char) → List Char × Nat
  | [] => (data, 0)
  | c :: rest =>
    if c.isEmpty then (data, 0)
    else
      let d := data ++ c
      if promptMatchOlt d then (d, 0)
      else if containsSubL oltPagination d then
        let r := readUntilPromptOlt (replaceAllL oltPagination [] d) rest
        (r.1, r.2 + 1)
      else readUntilPromptOlt d rest

/-- A run of the reader is pagination-safe when at no reached buffer state the
prompt pattern matches while a pagination marker is still present, and
stripping the marker never splices a new marker together (str.replace does a
single non-rescanning pass). -/
def pagSafeRun (data : List Char) : List (List Char) → Bool
  | [] => true
  | c :: rest =>
    if c.isEmpty then true
    else
      let d := data ++ c
      if promptMatchOlt d then !containsSubL oltPagination d
      else if containsSubL oltPagination d then
        !containsSubL oltPagination (replaceAllL oltPagination [] d) &&
          pagSafeRun (replaceAllL oltPagination [] d) rest
      else pagSafeRun d rest

/-- Number of read iterations in which a pagination marker is detected in the
buffer (with the prompt not yet matching), i.e. the iterations in which the
source writes exactly one space. -/
def pagDetections (data : List Char) : List (List Char) → Nat
  | [] => 0
  | c :: rest =>
    if c.isEmpty then 0
    else
      let d := data ++ c
      if promptMatchOlt d then 0
      else if containsSubL oltPagination d then
        pagDetections (replaceAllL oltPagination [] d) rest + 1
      else pagDetections d rest

/-- `self._pagination_prompts` of SwitchClient, in source order. -/
def switchPaginationPrompts : List (List Char) :=
  ["---- More ----".data, "--More--".data, "-- More --".data, "---More---".data]

/-- The switch prompt regex `[>\#\]]\s*` anchored at the end: after trailing
whitespace the buffer ends in one of the three terminator characters. -/
def promptMatchSwitch (data : List Char) : Bool :=
  match dropWhileL pySpace data.reverse with
  | c :: _ => c == '>' || c == '#' || c == ']'
  | [] => false

/-- The first configured pagination prompt contained in the buffer
(the source's for-loop breaks after the first hit). -/
def swFindPagination (d : List Char) : Option (List Char) :=
  switchPaginationPrompts.find? (fun p => containsSubL p d)

/-- Result of one read call: the unread rest of the stream, the returned
data, the matched pattern (empty on EOF) and the pager spaces written. -/
structure ReadResult where
  restChunks : List (List Char)
  data : List Char
  matched : List Char
  pagerSpaces : Nat

/-- `_read_until_prompt` of SwitchClient over a chunk stream. -/
def swReadUntilPrompt (data : List Char) : List (List Char) → ReadResult
  | [] => ⟨[], data, [], 0⟩
  | c :: rest =>
    if c.isEmpty then ⟨rest, data, [], 0⟩
    else
      let d := data ++ c
      if promptMatchSwitch d then ⟨rest, d, [], 0⟩
      else
        match swFindPagination d with
        | some pag =>
          let r := swReadUntilPrompt (replaceAllL pag [] d) rest
          { r with pagerSpaces := r.pagerSpaces + 1 }
        | none => swReadUntilPrompt d rest

/-- Whether any of the four configured switch markers occurs in the buffer. -/
def swHasPagination (d : List Char) : Bool :=
  switchPaginationPrompts.any (fun p => containsSubL p d)

/-- A switch-reader run is pagination-safe when the prompt never matches a
buffer still holding a marker, and the buffer left by each strip of the
first detected marker type is free of every marker type (this fails both
when two different marker types sit in one buffer - only the first is
stripped - and when stripping splices a marker together). -/
def swPagSafeRun (data : List Char) : List (List Char) → Bool
  | [] => true
  | c :: rest =>
    if c.isEmpty then true
    else
      let d := data ++ c
      if promptMatchSwitch d then !swHasPagination d
      else
        match swFindPagination d with
        | some pag =>
          !swHasPagination (replaceAllL pag [] d) &&
            swPagSafeRun (replaceAllL pag [] d) rest
        | none => swPagSafeRun d rest

/-- Read iterations of the switch reader in which a pagination marker is
detected (one space is written per such iteration). -/
def swPagDetections (data : List Char) : List (List Char) → Nat
  | [] => 0
  | c :: rest =>
    if c.isEmpty then 0
    else
      let d := data ++ c
      if promptMatchSwitch d then 0
      else
        match swFindPagination d with
        | some pag => swPagDetections (replaceAllL pag [] d) rest + 1
        | none => swPagDetections d rest

theorem swHasPagination_false_of_none (d : List Char)
    (h : swFindPagination d = none) : swHasPagination d = false := by
  unfold swFindPagination at h
  unfold swHasPagination
  rw [List.find?_eq_none] at h
  rw [List.any_eq_false]
  intro p hp
  simpa using h p hp

/-- C2 counterexample: in the OLT reader a chunk delivering pagination
markers together with the shell prompt is returned with the markers still
inside and no space written (the prompt check runs first); and in the
switch reader a buffer holding two different marker types keeps the second
one, because only the first configured marker type is stripped per
detection, so the text returned at EOF still contains a marker. -/
theorem C2_pagination_counterexample :
    containsSubL oltPagination
        (readUntilPromptOlt [] ["--More--x--More--y\nhost# ".data]).1 = true
    ∧ (readUntilPromptOlt [] ["--More--x--More--y\nhost# ".data]).2 = 0
    ∧ swHasPagination
        (swReadUntilPrompt [] ["---- More ----ab--More--cd".data, []]).data = true
    ∧ (swReadUntilPrompt [] ["---- More ----ab--More--cd".data, []]).pagerSpaces = 1 := by
  refine ⟨by decide, by decide, by decide, by decide⟩

theorem readUntilPromptOlt_safe (chunks : List (List Char)) : ∀ data : List Char,
    (pagSafeRun data chunks = true → containsSubL oltPagination data = false →
      containsSubL oltPagination (readUntilPromptOlt data chunks).1 = false)
    ∧ (readUntilPromptOlt data chunks).2 = pagDetections data chunks := by
  induction chunks with
  | nil =>
    intro data
    exact ⟨fun _ h => h, rfl⟩
  | cons c rest ih =>
    intro data
    cases hc : c.isEmpty with
    | true =>
      constructor
      · intro _ hdata
        simpa [readUntilPromptOlt, hc] using hdata
      · simp [readUntilPromptOlt, pagDetections, hc]
    | false =>
      cases hp : promptMatchOlt (data ++ c) with
      | true =>
        constructor
        · intro hsafe _
          have h1 : (readUntilPromptOlt data (c :: rest)).1 = data ++ c := by
            simp [readUntilPromptOlt, hc, hp]
          rw [h1]
          simp only [pagSafeRun, hc, hp] at hsafe
          simpa using hsafe
        · simp [readUntilPromptOlt, pagDetections, hc, hp]
      | false =>
        cases hm : containsSubL oltPagination (data ++ c) with
        | true =>
          constructor
          · intro hsafe _
            simp only [pagSafeRun, hc, hp, hm, Bool.false_eq_true, if_false, if_true,
              Bool.and_eq_true] at hsafe
            have h1 : (readUntilPromptOlt data (c :: rest)).1 =
                (readUntilPromptOlt (replaceAllL oltPagination [] (data ++ c)) rest).1 := by
              simp [readUntilPromptOlt, hc, hp, hm]
            rw [h1]
            exact (ih _).1 hsafe.2 (by simpa using hsafe.1)
          · have h2 : (readUntilPromptOlt data (c :: rest)).2 =
                (readUntilPromptOlt (replaceAllL oltPagination [] (data ++ c)) rest).2 + 1 := by
              simp [readUntilPromptOlt, hc, hp, hm]
            have h3 : pagDetections data (c :: rest) =
                pagDetections (replaceAllL oltPagination [] (data ++ c)) rest + 1 := by
              simp [pagDetections, hc, hp, hm]
            rw [h2, h3, (ih _).2]
        | false =>
          constructor
          · intro hsafe hdata
            simp only [pagSafeRun, hc, hp, hm, Bool.false_eq_true, if_false] at hsafe
            have h1 : (readUntilPromptOlt data (c :: rest)).1 =
                (readUntilPromptOlt (data ++ c) rest).1 := by
              simp [readUntilPromptOlt, hc, hp, hm]
            rw [h1]
            exact (ih _).1 hsafe (by simpa using hm)
          · have h2 : (readUntilPromptOlt data (c :: rest)).2 =
                (readUntilPromptOlt (data ++ c) rest).2 := by
              simp [readUntilPromptOlt, hc, hp, hm]
            have h3 : pagDetections data (c :: rest) = pagDetections (data ++ c) rest := by
              simp [pagDetections, hc, hp, hm]
            rw [h2, h3, (ih _).2]

theorem swReadUntilPrompt_safe (chunks : List (List Char)) : ∀ data : List Char,
    (swPagSafeRun data chunks = true → swHasPagination data = false →
      swHasPagination (swReadUntilPrompt data chunks).data = false)
    ∧ (swReadUntilPrompt data chunks).pagerSpaces = swPagDetections data chunks := by
  induction chunks with
  | nil =>
    intro data
    exact ⟨fun _ h => h, rfl⟩
  | cons c rest ih =>
    intro data
    cases hc : c.isEmpty with
    | true =>
      constructor
      · intro _ hdata
        simpa [swReadUntilPrompt, hc] using hdata
      · simp [swReadUntilPrompt, swPagDetections, hc]
    | false =>
      cases hp : promptMatchSwitch (data ++ c) with
      | true =>
        constructor
        · intro hsafe _
          have h1 : (swReadUntilPrompt data (c :: rest)).data = data ++ c := by
            simp [swReadUntilPrompt, hc, hp]
          rw [h1]
          simp only [swPagSafeRun, hc, hp] at hsafe
          simpa using hsafe
        · simp [swReadUntilPrompt, swPagDetections, hc, hp]
      | false =>
        cases hfp : swFindPagination (data ++ c) with
        | some pag =>
          constructor
          · intro hsafe _
            simp only [swPagSafeRun, hc, hp, hfp, Bool.false_eq_true, if_false,
              Bool.and_eq_true] at hsafe
            have h1 : (swReadUntilPrompt data (c :: rest)).data =
                (swReadUntilPrompt (replaceAllL pag [] (data ++ c)) rest).data := by
              simp [swReadUntilPrompt, hc, hp, hfp]
            rw [h1]
            exact (ih _).1 hsafe.2 (by simpa using hsafe.1)
          · have h2 : (swReadUntilPrompt data (c :: rest)).pagerSpaces =
                (swReadUntilPrompt (replaceAllL pag [] (data ++ c)) rest).pagerSpaces + 1 := by
              simp [swReadUntilPrompt, hc, hp, hfp]
            have h3 : swPagDetections data (c :: rest) =
                swPagDetections (replaceAllL pag [] (data ++ c)) rest + 1 := by
              simp [swPagDetections, hc, hp, hfp]
            rw [h2, h3, (ih _).2]
        | none =>
          constructor
          · intro hsafe hdata
            simp only [swPagSafeRun, hc, hp, hfp, Bool.false_eq_true, if_false] at hsafe
            have h1 : (swReadUntilPrompt data (c :: rest)).data =
                (swReadUntilPrompt (data ++ c) rest).data := by
              simp [swReadUntilPrompt, hc, hp, hfp]
            rw [h1]
            exact (ih _).1 hsafe (swHasPagination_false_of_none _ hfp)
          · have h2 : (swReadUntilPrompt data (c :: rest)).pagerSpaces =
                (swReadUntilPrompt (data ++ c) rest).pagerSpaces := by
              simp [swReadUntilPrompt, hc, hp, hfp]
            have h3 : swPagDetections data (c :: rest) = swPagDetections (data ++ c) rest := by
              simp [swPagDetections, hc, hp, hfp]
            rw [h2, h3, (ih _).2]

/-- C2 (amended): in each read iteration of either read-until-prompt loop
in which a pagination marker is detected, a single space keystroke is
written to the device - the space count of a run equals its detection
count; the OLT reader strips all occurrences of its one marker, the switch
reader all occurrences of the first configured marker type found - and on
every pagination-safe run, one where the prompt pattern never matches a
buffer still holding a marker and the buffer left by each strip is free of
every marker type, the text returned by the loop contains zero
pagination-marker substrings. -/
theorem C2_pagination_amended (chunks : List (List Char)) (data : List Char) :
    ((pagSafeRun data chunks = true → containsSubL oltPagination data = false →
        containsSubL oltPagination (readUntilPromptOlt data chunks).1 = false)
      ∧ (readUntilPromptOlt data chunks).2 = pagDetections data chunks)
    ∧ ((swPagSafeRun data chunks = true → swHasPagination data = false →
        swHasPagination (swReadUntilPrompt data chunks).data = false)
      ∧ (swReadUntilPrompt data chunks).pagerSpaces = swPagDetections data chunks) :=
  ⟨readUntilPromptOlt_safe chunks data, swReadUntilPrompt_safe chunks data⟩

/-- Example chunk stream for the C2 witness: the marker arrives split across
two chunks, is stripped once, and the prompt arrives last. -/
def c2ExampleChunks : List (List Char) :=
  ["line1\n--Mo".data, "re--line2\n".data, "host# ".data]

/-- Switch-reader chunk stream for the C2 witness: one marker type arrives
split across two chunks, is stripped once, and the prompt arrives last. -/
def c2SwitchChunks : List (List Char) :=
  ["ab---- Mo".data, "re ----cd\n".data, "sw# ".data]

/-- C2 witness: on concrete pagination-safe streams both readers return
marker-free text and their space counts equal their detection counts
(here 1 each). -/
theorem C2_pagination_witness :
    containsSubL oltPagination (readUntilPromptOlt [] c2ExampleChunks).1 = false
    ∧ (readUntilPromptOlt [] c2ExampleChunks).2 = pagDetections [] c2ExampleChunks
    ∧ pagDetections [] c2ExampleChunks = 1
    ∧ swHasPagination (swReadUntilPrompt [] c2SwitchChunks).data = false
    ∧ (swReadUntilPrompt [] c2SwitchChunks).pagerSpaces = swPagDetections [] c2SwitchChunks
    ∧ swPagDetections [] c2SwitchChunks = 1 := by
  have h1 := C2_pagination_amended c2ExampleChunks []
  have h2 := C2_pagination_amended c2SwitchChunks []
  exact ⟨h1.1.1 (by decide) (by decide), h1.1.2, by decide,
    h2.2.1 (by decide) (by decide), h2.2.2, by decide⟩

/-! ## C3: the next-available-ONU-ID allocator

Embeds `TelnetClient.find_next_available_onu_id` (src/services/telnet.py
lines 691-721).  The per-line parse is
`re.split(r"\s+", line.strip())[0]` (the first whitespace-delimited token),
then `re.split(":", token)[-1]` (the text after the last colon), then
`int(...)`; parse failures skip the line.  The raise of
`ValueError(f"Port PON ... penuh.")` - the spec's CapacityError - is
modelled as `.error ()`. -/

def natOfDigits (ds : List Char) : Nat :=
  ds.foldl (fun acc c => 10 * acc + (c.toNat - '0'.toNat)) 0

/-- Python int(token) for a token without inner whitespace: an optional sign
followed by at least one ASCII digit (underscore grouping is not used by any
device output and is not modelled). -/
def parseIntPy : List Char → Option Int
  | '-' :: ds =>
    if !ds.isEmpty && ds.all Char.isDigit then some (-(natOfDigits ds : Int)) else none
  | '+' :: ds =>
    if !ds.isEmpty && ds.all Char.isDigit then some (natOfDigits ds : Int) else none
  | ds =>
    if !ds.isEmpty && ds.all Char.isDigit then some (natOfDigits ds : Int) else none

/-- `re.split(":", t)[-1]`: the text after the last colon. -/
def afterLastColon (t : List Char) : List Char :=
  (takeWhileL (fun c => c != ':') t.reverse).reverse

/-- The identifier substring selecting active lines:
`'enable' if self.is_c600 else '1(GPON)'`. -/
def onuStateIdentifier (isC600 : Bool) : List Char :=
  if isC600 then "enable".data else "1(GPON)".data

/-- The loop that collects `active_onus` from the port-state output. -/
def parseActiveOnus (identifier : List Char) (output : List Char) : List Int :=
  (splitlinesPy output).foldl
    (fun acc line =>
      if containsSubL identifier line then
        match parseIntPy (afterLastColon (takeWhileL (fun c => !pySpace c) (stripL line))) with
        | some n => acc ++ [n]
        | none => acc
      else acc)
    []

/-- The scan `calculation = 1; for onu_id in active: break on gap` of the
allocator, applied to the sorted active list. -/
def scanCalc : List Int → Int → Int
  | [], cnt => cnt
  | onuId :: rest, cnt => if onuId != cnt then cnt else scanCalc rest (cnt + 1)

/-- `find_next_available_onu_id`: parse the active indices from the state
output, return 1 when none are active, otherwise sort and scan upward from 1;
raise (the spec's CapacityError) when the scan passes 128. -/
def findNextAvailableOnuId (isC600 : Bool) (output : List Char) : Except Unit Int :=
  let active := parseActiveOnus (onuStateIdentifier isC600) output
  if active.isEmpty then .ok 1
  else
    let calculation := scanCalc (active.insertionSort (· ≤ ·)) 1
    if 128 < calculation then .error () else .ok calculation

theorem scanCalc_spec : ∀ (l : List Int) (c : Int),
    l.Sorted (· ≤ ·) → l.Nodup → (∀ x ∈ l, c ≤ x) →
    c ≤ scanCalc l c ∧ scanCalc l c ∉ l ∧
      ∀ m : Int, c ≤ m → m < scanCalc l c → m ∈ l := by
  intro l
  induction l with
  | nil =>
    intro c _ _ _
    simp only [scanCalc]
    refine ⟨le_refl c, by simp, ?_⟩
    intro m hm hlt
    omega
  | cons x rest ih =>
    intro c hs hn hb
    have hsr : rest.Sorted (· ≤ ·) := (List.sorted_cons.mp hs).2
    have hxle : ∀ y ∈ rest, x ≤ y := (List.sorted_cons.mp hs).1
    have hxnotin : x ∉ rest := (List.nodup_cons.mp hn).1
    have hnr : rest.Nodup := (List.nodup_cons.mp hn).2
    by_cases hx : x = c
    · subst hx
      have hstep : scanCalc (x :: rest) x = scanCalc rest (x + 1) := by
        simp [scanCalc]
      have hb2 : ∀ y ∈ rest, x + 1 ≤ y := by
        intro y hy
        have h1 := hxle y hy
        have h2 : y ≠ x := fun he => hxnotin (he ▸ hy)
        omega
      obtain ⟨h1, h2, h3⟩ := ih (x + 1) hsr hnr hb2
      rw [hstep]
      refine ⟨by omega, ?_, ?_⟩
      · intro hmem
        rcases List.mem_cons.mp hmem with heq | hmem2
        · omega
        · exact h2 hmem2
      · intro m hm hlt
        rcases eq_or_lt_of_le hm with heq | hlt2
        · exact heq ▸ List.mem_cons_self x rest
        · exact List.mem_cons_of_mem x (h3 m (by omega) hlt)
    · have hstep : scanCalc (x :: rest) c = c := by
        simp [scanCalc, bne_iff_ne, hx]
      rw [hstep]
      have hcx : c < x := lt_of_le_of_ne (hb x (List.mem_cons_self x rest)) (fun h => hx h.symm)
      refine ⟨le_refl c, ?_, ?_⟩
      · intro hmem
        rcases List.mem_cons.mp hmem with heq | hmem2
        · omega
        · have := hxle c hmem2
          omega
      · intro m hm hlt
        omega

/-- C3 counterexample: the claim fails on a state output whose parsed index
list contains a zero index and a duplicate: the parser yields the list
0, 1, 1, 2, the sorted scan breaks at the very first gap and the allocator
returns 1, although 1 is itself an active ONU index (the smallest positive
integer missing from the parsed set 0, 1, 2 is 3). -/
theorem C3_allocator_counterexample :
    findNextAvailableOnuId false
        ("gpon-onu_1/1/1:0  1(GPON)  ready\ngpon-onu_1/1/1:1  1(GPON)  ready\ngpon-onu_1/1/1:1  1(GPON)  ready\ngpon-onu_1/1/1:2  1(GPON)  ready").data
      = .ok 1
    ∧ (1 : Int) ∈ parseActiveOnus (onuStateIdentifier false)
        ("gpon-onu_1/1/1:0  1(GPON)  ready\ngpon-onu_1/1/1:1  1(GPON)  ready\ngpon-onu_1/1/1:1  1(GPON)  ready\ngpon-onu_1/1/1:2  1(GPON)  ready").data := by
  constructor
  · rfl
  · decide

/-- C3 (amended): for every port-state output whose parsed active indices are
pairwise distinct and positive (as in every well-formed state table), the
allocator returns the smallest positive integer not among them, bounded by
128, and fails with the CapacityError instead of returning an ID greater
than 128 when all of 1..128 are active. -/
theorem C3_allocator_amended (isC600 : Bool) (output : List Char)
    (hnd : (parseActiveOnus (onuStateIdentifier isC600) output).Nodup)
    (hpos : ∀ x ∈ parseActiveOnus (onuStateIdentifier isC600) output, (1 : Int) ≤ x) :
    (∀ n : Int, findNextAvailableOnuId isC600 output = .ok n →
      1 ≤ n ∧ n ≤ 128 ∧ n ∉ parseActiveOnus (onuStateIdentifier isC600) output ∧
        ∀ m : Int, 1 ≤ m → m < n → m ∈ parseActiveOnus (onuStateIdentifier isC600) output)
    ∧ (findNextAvailableOnuId isC600 output = .error () →
        ∀ m : Int, 1 ≤ m → m ≤ 128 →
          m ∈ parseActiveOnus (onuStateIdentifier isC600) output) := by
  set l := parseActiveOnus (onuStateIdentifier isC600) output with hl
  by_cases hemp : l.isEmpty
  · have hnil : l = [] := List.isEmpty_iff.mp hemp
    constructor
    · intro n hn
      have : findNextAvailableOnuId isC600 output = .ok 1 := by
        unfold findNextAvailableOnuId
        rw [← hl, hnil]
        rfl
      rw [this] at hn
      simp only [Except.ok.injEq] at hn
      subst hn
      refine ⟨le_refl 1, by omega, by simp [hnil], ?_⟩
      intro m hm hlt
      omega
    · intro hn
      have : findNextAvailableOnuId isC600 output = .ok 1 := by
        unfold findNextAvailableOnuId
        rw [← hl, hnil]
        rfl
      rw [this] at hn
      exact absurd hn (by simp)
  · have hperm : List.Perm (l.insertionSort (· ≤ ·)) l := List.perm_insertionSort (· ≤ ·) l
    have hsorted : (l.insertionSort (· ≤ ·)).Sorted (· ≤ ·) :=
      List.sorted_insertionSort (· ≤ ·) l
    have hnd2 : (l.insertionSort (· ≤ ·)).Nodup := hperm.nodup_iff.mpr hnd
    have hb : ∀ x ∈ l.insertionSort (· ≤ ·), (1 : Int) ≤ x := by
      intro x hx
      exact hpos x (hperm.mem_iff.mp hx)
    obtain ⟨h1, h2, h3⟩ := scanCalc_spec (l.insertionSort (· ≤ ·)) 1 hsorted hnd2 hb
    have hval : findNextAvailableOnuId isC600 output =
        (if 128 < scanCalc (l.insertionSort (· ≤ ·)) 1 then Except.error ()
         else Except.ok (scanCalc (l.insertionSort (· ≤ ·)) 1)) := by
      unfold findNextAvailableOnuId
      rw [← hl]
      simp [hemp]
    by_cases hcap : 128 < scanCalc (l.insertionSort (· ≤ ·)) 1
    · constructor
      · intro n hn
        rw [hval, if_pos hcap] at hn
        exact absurd hn (by simp)
      · intro _ m hm hm2
        have hmem := h3 m hm (by omega)
        exact hperm.mem_iff.mp hmem
    · constructor
      · intro n hn
        rw [hval, if_neg hcap] at hn
        simp only [Except.ok.injEq] at hn
        subst hn
        refine ⟨h1, by omega, fun hmem => h2 (hperm.mem_iff.mpr hmem), ?_⟩
        intro m hm hlt
        exact hperm.mem_iff.mp (h3 m hm hlt)
      · intro hn
        rw [hval, if_neg hcap] at hn
        exact absurd hn (by simp)

/-- A well-formed port-state output with active indices 1, 2 and 4 for the
C3 witness. -/
def c3GoodOutput : List Char :=
  ("gpon-onu_1/1/1:1  1(GPON)  ready\ngpon-onu_1/1/1:2  1(GPON)  ready\ngpon-onu_1/1/1:4  1(GPON)  ready").data

/-- C3 witness: on the spec's example active set 1, 2, 4 the allocator
returns 3, which is positive, at most 128 and not an active index. -/
theorem C3_allocator_witness :
    findNextAvailableOnuId false c3GoodOutput = .ok 3
    ∧ (1 : Int) ≤ 3 ∧ (3 : Int) ≤ 128
    ∧ (3 : Int) ∉ parseActiveOnus (onuStateIdentifier false) c3GoodOutput := by
  have h := (C3_allocator_amended false c3GoodOutput (by decide) (by decide)).1 3 (by rfl)
  exact ⟨by rfl, h.1, h.2.1, h.2.2.1⟩

/-! ## A small regex engine

The parsers of the source use `re.search` / `re.finditer` with patterns
built from literals, character classes quantified greedily or lazily, capture
groups and an optional multiline end-of-line anchor.  The engine below runs
exactly this token language with Python's backtracking order: greedy
quantifiers try the longest repetition first, lazy ones the shortest, and
the search tries start positions from the left.  Fuel is structural; the
wrappers always supply enough of it. -/

inductive RTok where
  | lit (l : List Char) (ci : Bool)
  | cls (p : Char → Bool) (oneOrMore : Bool) (greedy : Bool)
  | gOpen
  | gClose
  | eolM

/-- Case-insensitive character comparison used under re.IGNORECASE. -/
def charMatches (ci : Bool) (a b : Char) : Bool :=
  if ci then a.toLower == b.toLower else a == b

/-- Consume a literal (case-insensitively when ci). -/
def dropLit : List Char → Bool → List Char → Option (List Char)
  | [], _, s => some s
  | _ :: _, _, [] => none
  | a :: as, ci, b :: bs => if charMatches ci a b then dropLit as ci bs else none

/-- Longest run of characters satisfying the class at the head of the input. -/
def maxRunL (p : Char → Bool) : List Char → Nat
  | [] => 0
  | c :: rest => if p c then maxRunL p rest + 1 else 0

/-- Greedy repetition: try `hi` characters first, then back off down to `lo`. -/
def tryDesc {α : Type} (f : Nat → Option α) (lo : Nat) : Nat → Option α
  | 0 => if lo == 0 then f 0 else none
  | hi + 1 =>
    if hi + 1 < lo then none
    else
      match f (hi + 1) with
      | some r => some r
      | none => tryDesc f lo hi

/-- Lazy repetition: try `k` characters first, then extend `cnt` more times. -/
def tryAsc {α : Type} (f : Nat → Option α) (k : Nat) : Nat → Option α
  | 0 => f k
  | cnt + 1 =>
    match f k with
    | some r => some r
    | none => tryAsc f (k + 1) cnt

/-- Match a token list against a prefix of `s`; `st` is the stack of group
start positions.  Returns the captures in group order and the rest of the
input after the match.  One unit of fuel is spent per token, so any fuel
above the token-list length is enough. -/
def runToks : Nat → List RTok → List Char → List (List Char) → Option (List (List Char) × List Char)
  | 0, _, _, _ => none
  | _ + 1, [], s, _ => some ([], s)
  | fuel + 1, .lit l ci :: rest, s, st =>
    match dropLit l ci s with
    | some s2 => runToks fuel rest s2 st
    | none => none
  | fuel + 1, .cls p one greedy :: rest, s, st =>
    let n := maxRunL p s
    let lo := if one then 1 else 0
    if n < lo then none
    else if greedy then tryDesc (fun k => runToks fuel rest (s.drop k) st) lo n
    else tryAsc (fun k => runToks fuel rest (s.drop k) st) lo (n - lo)
  | fuel + 1, .gOpen :: rest, s, st => runToks fuel rest s (s :: st)
  | fuel + 1, .gClose :: rest, s, st =>
    match st with
    | s0 :: st2 =>
      match runToks fuel rest s st2 with
      | some (caps, r) => some (s0.take (s0.length - s.length) :: caps, r)
      | none => none
    | [] => none
  | fuel + 1, .eolM :: rest, s, st =>
    match s with
    | [] => runToks fuel rest [] st
    | c :: s2 => if c == '\n' then runToks fuel rest (c :: s2) st else none

/-- Match the pattern at the start of `s`. -/
def runPattern (toks : List RTok) (s : List Char) : Option (List (List Char) × List Char) :=
  runToks (toks.length + 1) toks s []

/-- `re.search`: try start positions left to right, return the first match. -/
def searchPattern (toks : List RTok) : List Char → Option (List (List Char) × List Char)
  | [] => runPattern toks []
  | c :: rest =>
    match runPattern toks (c :: rest) with
    | some r => some r
    | none => searchPattern toks rest

/-- `re.finditer` for non-empty-match patterns: scan, emit captures, continue
after each match end.  Fuel `input.length + 1` is always enough because every
match of the patterns used here consumes at least one character. -/
def finditerPattern (toks : List RTok) : Nat → List Char → List (List (List Char))
  | 0, _ => []
  | fuel + 1, s =>
    match searchPattern toks s with
    | some (caps, r) => caps :: finditerPattern toks fuel r
    | none => []

def isDigitC (c : Char) : Bool := c.isDigit
def nonSpaceC (c : Char) : Bool := !pySpace c
def digitDotC (c : Char) : Bool := c.isDigit || c == '.'
def anyNoNlC (c : Char) : Bool := c != '\n'
def anyC (_ : Char) : Bool := true

/-! ## C4: the DBA rate parser

Embeds `TelnetClient.get_dba_rate` (src/services/telnet.py lines 723-760).
The strict pattern is
`re.escape(interface)\s+\S*GPON\S*\s+\d+\s+\d+\s+([\d.]+)` with IGNORECASE;
the fallback is `re.escape(interface)\s+.*?([\d.]+)\s*$` with MULTILINE.
`float(rate_str)` raising ValueError is modelled as `.error ()`. -/

/-- Token form of the strict DBA pattern (IGNORECASE applies to the escaped
interface literal and to GPON). -/
def strictDbaToks (iface : List Char) : List RTok :=
  [.lit iface true, .cls pySpace true true, .cls nonSpaceC false true,
   .lit "GPON".data true, .cls nonSpaceC false true, .cls pySpace true true,
   .cls isDigitC true true, .cls pySpace true true, .cls isDigitC true true,
   .cls pySpace true true, .gOpen, .cls digitDotC true true, .gClose]

/-- Token form of the fallback DBA pattern (no IGNORECASE; `$` is the
MULTILINE end-of-line anchor and the dot does not cross newlines). -/
def fallbackDbaToks (iface : List Char) : List RTok :=
  [.lit iface false, .cls pySpace true true, .cls anyNoNlC false false,
   .gOpen, .cls digitDotC true true, .gClose, .cls pySpace false true, .eolM]

/-- Python float(token) for a token drawn from the class `[\d.]+`: defined
(with the decimal value) when the token has at least one digit and at most
one dot, ValueError (None) otherwise, e.g. on `1.2.3` or `.`. -/
def pyFloatOfToken (t : List Char) : Option ℚ :=
  if t.isEmpty || decide (1 < t.count '.') || !(t.any Char.isDigit) then none
  else
    some ((natOfDigits (takeWhileL (fun c => c != '.') t) : ℚ) +
      (natOfDigits ((dropWhileL (fun c => c != '.') t).drop 1) : ℚ) /
        ((10 : ℚ) ^ ((dropWhileL (fun c => c != '.') t).drop 1).length))

/-- `get_dba_rate`: try the strict pattern, fall back to the last-number
pattern, default to 0.0; converting an ill-formed captured token raises. -/
def getDbaRate (iface output : List Char) : Except Unit ℚ :=
  match searchPattern (strictDbaToks iface) output with
  | some (caps, _) =>
    match pyFloatOfToken (caps.headD []) with
    | some q => .ok q
    | none => .error ()
  | none =>
    match searchPattern (fallbackDbaToks iface) output with
    | some (caps, _) =>
      match pyFloatOfToken (caps.headD []) with
      | some q => .ok q
      | none => .error ()
    | none => .ok 0

/-- C4 counterexample: the parser does raise.  On a line whose rate column
holds `1.2.3` the strict pattern matches, `[\d.]+` captures `1.2.3`, and
`float("1.2.3")` raises ValueError, so `get_dba_rate` propagates an
exception instead of returning a value. -/
theorem C4_dba_counterexample :
    getDbaRate "X".data "X 1(GPON) 1 2 1.2.3".data = .error () := by
  rfl

/-- C4 (amended): for every device output the parser first tries the strict
interface+channel+percentage pattern and returns the captured number; if the
strict pattern misses it falls back to the trailing number of a line
containing the interface; if nothing parses it returns 0.0; and it raises
only when a captured rate token is not a valid float, such as `1.2.3`. -/
theorem C4_dba_amended (iface output : List Char) :
    (∀ caps r q, searchPattern (strictDbaToks iface) output = some (caps, r) →
      pyFloatOfToken (caps.headD []) = some q → getDbaRate iface output = .ok q)
    ∧ (∀ caps r q, searchPattern (strictDbaToks iface) output = none →
      searchPattern (fallbackDbaToks iface) output = some (caps, r) →
      pyFloatOfToken (caps.headD []) = some q → getDbaRate iface output = .ok q)
    ∧ (searchPattern (strictDbaToks iface) output = none →
      searchPattern (fallbackDbaToks iface) output = none → getDbaRate iface output = .ok 0)
    ∧ (getDbaRate iface output = .error () →
      ∃ caps r, (searchPattern (strictDbaToks iface) output = some (caps, r)
          ∨ (searchPattern (strictDbaToks iface) output = none
             ∧ searchPattern (fallbackDbaToks iface) output = some (caps, r)))
        ∧ pyFloatOfToken (caps.headD []) = none) := by
  refine ⟨?_, ?_, ?_, ?_⟩
  · intro caps r q h1 h2
    unfold getDbaRate
    simp only [h1, h2]
  · intro caps r q h1 h2 h3
    unfold getDbaRate
    simp only [h1, h2, h3]
  · intro h1 h2
    unfold getDbaRate
    simp only [h1, h2]
  · intro herr
    unfold getDbaRate at herr
    cases h1 : searchPattern (strictDbaToks iface) output with
    | some cr =>
      obtain ⟨caps, r⟩ := cr
      simp only [h1] at herr
      cases h2 : pyFloatOfToken (caps.headD []) with
      | some q => simp only [h2] at herr; exact Except.noConfusion herr
      | none => exact ⟨caps, r, Or.inl rfl, h2⟩
    | none =>
      simp only [h1] at herr
      cases h2 : searchPattern (fallbackDbaToks iface) output with
      | some cr =>
        obtain ⟨caps, r⟩ := cr
        simp only [h2] at herr
        cases h3 : pyFloatOfToken (caps.headD []) with
        | some q => simp only [h3] at herr; exact Except.noConfusion herr
        | none => exact ⟨caps, r, Or.inr ⟨rfl, rfl⟩, h3⟩
      | none =>
        simp only [h2] at herr
        exact Except.noConfusion herr

/-- Output for the C4 witness: no strict match, but a loosely matching line
with trailing number 55.0. -/
def c4FallbackOut : List Char := "gpon-olt_1/3/3   total  55.0".data

/-- C4 witness: the spec's fallback example returns 55.0 through the
fallback branch of the amended theorem. -/
theorem C4_dba_witness :
    getDbaRate "gpon-olt_1/3/3".data c4FallbackOut = .ok 55 := by
  have hq : pyFloatOfToken (["55.0".data].headD []) = some 55 := by
    show pyFloatOfToken "55.0".data = some 55
    unfold pyFloatOfToken
    rw [if_neg (by decide)]
    rw [show takeWhileL (fun c => c != '.') "55.0".data = "55".data from by decide,
      show (dropWhileL (fun c => c != '.') "55.0".data).drop 1 = "0".data from by decide,
      show natOfDigits "55".data = 55 from by decide,
      show natOfDigits "0".data = 0 from by decide,
      show ("0".data).length = 1 from rfl]
    norm_num
  exact (C4_dba_amended "gpon-olt_1/3/3".data c4FallbackOut).2.1 ["55.0".data] [] 55
    (by rfl) (by rfl) hq

/-! ## C5: the connection pool

Embeds `ConnectionManager.get_connection` (src/services/connection_manager.py
lines 28-48) together with `TelnetClient.connect` (telnet.py lines 90-101).
A stream handle is a writer with its `is_closing` flag; a broken write is
reflected by the transport marking the writer as closing (the asyncio
contract the pool's check relies on).  Client identity is modelled by a
numeric id so that "a brand-new session" is expressible. -/

structure TWriter where
  isClosing : Bool
deriving DecidableEq

structure TClient where
  cid : Nat
  writer : Option TWriter
  loggedIn : Bool
deriving DecidableEq

/-- The pool's host-to-session map. -/
abbrev OltPool := List (String × TClient)

def poolLookup (p : OltPool) (host : String) : Option TClient :=
  (List.find? (fun e => e.1 == host) p).map (fun e => e.2)

/-- `del self._connections[host]`. -/
def poolRemove (p : OltPool) (host : String) : OltPool :=
  List.filter (fun e => e.1 != host) p

/-- `TelnetClient.connect`: skip when the writer is open, otherwise open the
connection and run the login. -/
def connectClient (c : TClient) : TClient :=
  match c.writer with
  | some w => if !w.isClosing then c else { c with writer := some ⟨false⟩, loggedIn := true }
  | none => { c with writer := some ⟨false⟩, loggedIn := true }

structure GetConnResult where
  client : TClient
  pool : OltPool
  didLogin : Bool

/-- Create, connect and store a brand-new session object. -/
def newSession (p : OltPool) (host : String) (freshId : Nat) : GetConnResult :=
  let c := connectClient ⟨freshId, none, false⟩
  ⟨c, p ++ [(host, c)], true⟩

/-- The body of `get_connection` after the loop-change check: return the
pooled client when its writer is open, otherwise evict it and build a new
session. -/
def getConnectionCore (pool : OltPool) (host : String) (freshId : Nat) : GetConnResult :=
  match poolLookup pool host with
  | some client =>
    match client.writer with
    | some w =>
      if !w.isClosing then ⟨client, pool, false⟩
      else newSession (poolRemove pool host) host freshId
    | none => newSession (poolRemove pool host) host freshId
  | none => newSession pool host freshId

/-- `get_connection`: `_check_loop_change` drops every pooled session when
the running event loop changed, then the lookup-or-create body runs. -/
def getConnection (pool : OltPool) (loopChanged : Bool) (host : String)
    (freshId : Nat) : GetConnResult :=
  getConnectionCore (if loopChanged then [] else pool) host freshId

/-- C5: the pool returns only ready sessions: a pooled client whose stream is
open is returned immediately with no re-login and no pool change; and once a
session's stream is marked closing - as the transport does after a failed
write - the next call builds a brand-new logged-in session with a fresh open
stream, never returning the broken client or its old writer handle. -/
theorem C5_pool_eviction (pool : OltPool) (host : String) (c : TClient) (w : TWriter)
    (fid : Nat) (hl : poolLookup pool host = some c) (hw : c.writer = some w) :
    (w.isClosing = false → getConnection pool false host fid = ⟨c, pool, false⟩)
    ∧ (w.isClosing = true → fid ≠ c.cid →
      (getConnection pool false host fid).client ≠ c
      ∧ (getConnection pool false host fid).client.cid = fid
      ∧ (getConnection pool false host fid).client.writer = some ⟨false⟩
      ∧ (getConnection pool false host fid).client.writer ≠ some w
      ∧ (getConnection pool false host fid).client.loggedIn = true
      ∧ (getConnection pool false host fid).didLogin = true) := by
  constructor
  · intro hopen
    have h0 : getConnection pool false host fid = getConnectionCore pool host fid := rfl
    rw [h0]
    unfold getConnectionCore
    simp [hl, hw, hopen]
  · intro hclosed hfid
    have hres : getConnection pool false host fid =
        newSession (poolRemove pool host) host fid := by
      have h0 : getConnection pool false host fid = getConnectionCore pool host fid := rfl
      rw [h0]
      unfold getConnectionCore
      simp [hl, hw, hclosed]
    rw [hres]
    have hcl : (newSession (poolRemove pool host) host fid).client =
        ⟨fid, some ⟨false⟩, true⟩ := rfl
    refine ⟨?_, by rw [hcl], by rw [hcl], ?_, by rw [hcl], rfl⟩
    · rw [hcl]
      intro he
      exact hfid (congrArg TClient.cid he)
    · rw [hcl]
      intro he
      have : (⟨false⟩ : TWriter) = w := by
        simpa using he
      rw [← this] at hclosed
      simp at hclosed

/-- C5 witness: a concrete pool holding a broken session for a host; the next
call returns a brand-new logged-in session. -/
theorem C5_pool_witness :
    (getConnection [("192.168.12.1", ⟨1, some ⟨true⟩, true⟩)] false "192.168.12.1" 2).client
        ≠ (⟨1, some ⟨true⟩, true⟩ : TClient)
    ∧ (getConnection [("192.168.12.1", ⟨1, some ⟨true⟩, true⟩)] false "192.168.12.1" 2).client.cid = 2
    ∧ (getConnection [("192.168.12.1", ⟨1, some ⟨true⟩, true⟩)] false "192.168.12.1" 2).client.writer
        = some ⟨false⟩
    ∧ (getConnection [("192.168.12.1", ⟨1, some ⟨true⟩, true⟩)] false "192.168.12.1" 2).client.writer
        ≠ some ⟨true⟩
    ∧ (getConnection [("192.168.12.1", ⟨1, some ⟨true⟩, true⟩)] false "192.168.12.1" 2).client.loggedIn
        = true
    ∧ (getConnection [("192.168.12.1", ⟨1, some ⟨true⟩, true⟩)] false "192.168.12.1" 2).didLogin
        = true := by
  exact (C5_pool_eviction [("192.168.12.1", ⟨1, some ⟨true⟩, true⟩)] "192.168.12.1"
    ⟨1, some ⟨true⟩, true⟩ ⟨true⟩ 2 (by rfl) (by rfl)).2 rfl (by decide)

/-! ## C6: HTTP status mapping of the OLT configuration endpoints

Embeds the except-clause chains of `run_configuration`
(src/api/v1/endpoints/telnet.py lines 172-176) and
`run_configuration_bridge` (lines 206-214).  Python exception kinds are a
closed sum here; `KeyError` is a `LookupError` subclass and is covered by
the `lookupError` constructor. -/

inductive PyExc where
  | lookupError (msg : String)
  | connectionError (msg : String)
  | timeoutError (msg : String)
  | valueError (msg : String)
  | runtimeError (msg : String)
  | otherError (msg : String)
deriving DecidableEq

/-- `run_configuration_bridge`: ConnectionError/TimeoutError to 504, then
LookupError to 404, then any Exception to 500. -/
def bridgeStatusOf : PyExc → Nat
  | .connectionError _ => 504
  | .timeoutError _ => 504
  | .lookupError _ => 404
  | _ => 500

/-- `run_configuration`: ConnectionError/TimeoutError to 504, then any
Exception to 500 - there is no LookupError clause. -/
def configureStatusOf : PyExc → Nat
  | .connectionError _ => 504
  | .timeoutError _ => 504
  | _ => 500

/-- C6 counterexample: a LookupError escaping inside `run_configuration`
(one of the two OLT configuration endpoints the claim covers) falls through
to the generic handler and is mapped to 500, not 404. -/
theorem C6_status_counterexample :
    configureStatusOf (.lookupError "SN tidak ditemukan") = 500
    ∧ configureStatusOf (.lookupError "SN tidak ditemukan") ≠ 404 := by
  exact ⟨rfl, by decide⟩

/-- C6 (amended): `run_configuration_bridge` maps ConnectionError and
timeout to 504, LookupError to 404 and every other exception to 500, as the
claim states; `run_configuration` however maps only ConnectionError and
timeout to 504 and everything else - LookupError included - to 500. -/
theorem C6_status_amended :
    (∀ m, bridgeStatusOf (.connectionError m) = 504 ∧ bridgeStatusOf (.timeoutError m) = 504
      ∧ bridgeStatusOf (.lookupError m) = 404 ∧ bridgeStatusOf (.valueError m) = 500
      ∧ bridgeStatusOf (.runtimeError m) = 500 ∧ bridgeStatusOf (.otherError m) = 500)
    ∧ (∀ m, configureStatusOf (.connectionError m) = 504
      ∧ configureStatusOf (.timeoutError m) = 504
      ∧ configureStatusOf (.lookupError m) = 500 ∧ configureStatusOf (.valueError m) = 500
      ∧ configureStatusOf (.runtimeError m) = 500 ∧ configureStatusOf (.otherError m) = 500) := by
  exact ⟨fun _ => ⟨rfl, rfl, rfl, rfl, rfl, rfl⟩, fun _ => ⟨rfl, rfl, rfl, rfl, rfl, rfl⟩⟩

/-! ## C7: the Ruijie switch login sequence

Embeds `SwitchClient._read_until_pattern` and `SwitchClient._login_ruijie`
(src/services/switch_telnet.py lines 81-115 and 213-247), on top of the
switch transport embedded in the C2 section.  The device's byte stream is
again a list of chunks; each read consumes chunks until a pattern (compared
case-insensitively) appears in the accumulated buffer, transparently
answering the pagination prompts of `self._pagination_prompts` with one
space each. -/

/-- `_read_until_pattern` over a chunk stream. -/
def swReadUntilPattern (patterns : List (List Char)) (data : List Char) :
    List (List Char) → ReadResult
  | [] => ⟨[], data, [], 0⟩
  | c :: rest =>
    if c.isEmpty then ⟨rest, data, [], 0⟩
    else
      let d := data ++ c
      match patterns.find? (fun p => containsSubL (toLowerL p) (toLowerL d)) with
      | some p => ⟨rest, d, p, 0⟩
      | none =>
        match swFindPagination d with
        | some pag =>
          let r := swReadUntilPattern patterns (replaceAllL pag [] d) rest
          { r with pagerSpaces := r.pagerSpaces + 1 }
        | none => swReadUntilPattern patterns d rest

/-- Observable events of a login run: the settle delay, each awaited
pattern set with the pager spaces its read wrote, each line written, and
the final wait for the shell prompt. -/
inductive SwEvent where
  | slept (secs : Nat)
  | awaited (patterns : List (List Char)) (pagerSpaces : Nat)
  | wrote (line : List Char)
  | awaitedPrompt (pagerSpaces : Nat)
deriving DecidableEq

/-- `_login_ruijie` as an event trace over the device's chunk stream. -/
def loginRuijie (username password : List Char) (chunks : List (List Char)) : List SwEvent :=
  let r1 := swReadUntilPattern ["password:".data] [] chunks
  let r2 := swReadUntilPattern [">".data] [] r1.restChunks
  let r3 := swReadUntilPattern ["password:".data] [] r2.restChunks
  let r4 := swReadUntilPrompt [] r3.restChunks
  [.slept 1,
   .awaited ["password:".data] r1.pagerSpaces, .wrote (username ++ ['\n']),
   .awaited [">".data] r2.pagerSpaces, .wrote ("en".data ++ ['\n']),
   .awaited ["password:".data] r3.pagerSpaces, .wrote (password ++ ['\n']),
   .awaitedPrompt r4.pagerSpaces]

/-- The lines a trace writes to the device (pager spaces are written inside
the transport reads and are accounted separately in the awaited events). -/
def swWrites (es : List SwEvent) : List (List Char) :=
  es.filterMap (fun e => match e with | .wrote l => some l | _ => none)

/-- C7 counterexample: the login's final wait is not for a hash prompt.  It
is `_read_until_prompt`, whose pattern accepts any of the three terminators,
so it completes on a buffer ending in a greater-than sign that contains no
hash at all - as when the enable escalation fails and the device re-presents
its user-mode prompt - refuting the claim's final clause at this input. -/
theorem C7_ruijie_counterexample :
    promptMatchSwitch "Ruijie> ".data = true
    ∧ containsSubL ['#'] "Ruijie> ".data = false
    ∧ (swReadUntilPrompt [] ["Ruijie> ".data]).data = "Ruijie> ".data := by
  refine ⟨by decide, by decide, by decide⟩

/-- C7 (amended): for every device stream the Ruijie login performs, in
order, the 1-second settle delay, a wait for the first "Password:" prompt
answered with the username (not the password), a wait for the greater-than
prompt answered with "en", a wait for the second "Password:" prompt
answered with the real password, and a final wait for the generic shell
prompt pattern, which completes on any of the terminators greater-than,
hash or closing bracket (an enable-mode session presents the hash); the
lines written are exactly username, "en", password, in that order. -/
theorem C7_ruijie_login (username password : List Char) (chunks : List (List Char)) :
    (∃ n1 n2 n3 n4, loginRuijie username password chunks =
      [.slept 1,
       .awaited ["password:".data] n1, .wrote (username ++ ['\n']),
       .awaited [">".data] n2, .wrote ("en".data ++ ['\n']),
       .awaited ["password:".data] n3, .wrote (password ++ ['\n']),
       .awaitedPrompt n4])
    ∧ swWrites (loginRuijie username password chunks) =
        [username ++ ['\n'], "en".data ++ ['\n'], password ++ ['\n']]
    ∧ promptMatchSwitch "Ruijie# ".data = true
    ∧ promptMatchSwitch "Ruijie> ".data = true
    ∧ promptMatchSwitch "[Ruijie]".data = true := by
  refine ⟨⟨_, _, _, _, rfl⟩, rfl, by decide, by decide, by decide⟩

/-! ## C8: the ethernet port status parser

Embeds `TelnetClient._parse_eth_port_statuses` (src/services/telnet.py
lines 327-377).  The pattern
`Interface\s+:\s+(eth_\d+/\d+).*?Speed status\s+:\s+(\S+).*?Admin status\s+:\s+(\S+)`
runs with DOTALL under `finditer`. -/

/-- Token form of the ethernet-port pattern (DOTALL: the lazy any-star
crosses newlines). -/
def ethPortToks : List RTok :=
  [.lit "Interface".data false, .cls pySpace true true, .lit ":".data false,
   .cls pySpace true true,
   .gOpen, .lit "eth_".data false, .cls isDigitC true true, .lit "/".data false,
   .cls isDigitC true true, .gClose,
   .cls anyC false false,
   .lit "Speed status".data false, .cls pySpace true true, .lit ":".data false,
   .cls pySpace true true,
   .gOpen, .cls nonSpaceC true true, .gClose,
   .cls anyC false false,
   .lit "Admin status".data false, .cls pySpace true true, .lit ":".data false,
   .cls pySpace true true,
   .gOpen, .cls nonSpaceC true true, .gClose]

/-- `re.search(r"(\d+)", s)`: the first maximal digit run, as a number. -/
def firstDigitRun : List Char → Option Nat
  | [] => none
  | c :: rest =>
    if c.isDigit then some (natOfDigits (c :: takeWhileL Char.isDigit rest))
    else firstDigitRun rest

structure EthPortStatus where
  interface : List Char
  is_unlocked : Bool
  speed_status : List Char
  lan_detected : Bool
  speed_mbps : Option Nat
deriving DecidableEq

/-- The per-match result dict of `_parse_eth_port_statuses`. -/
def mkEthPortStatus (caps : List (List Char)) : EthPortStatus :=
  { interface := caps.headD []
    is_unlocked := toLowerL ((caps.drop 2).headD []) == "unlock".data
    speed_status := (caps.drop 1).headD []
    lan_detected := containsSubL "full-".data (toLowerL ((caps.drop 1).headD []))
      || containsSubL "half-".data (toLowerL ((caps.drop 1).headD []))
    speed_mbps :=
      if containsSubL "full-".data (toLowerL ((caps.drop 1).headD []))
          || containsSubL "half-".data (toLowerL ((caps.drop 1).headD [])) then
        firstDigitRun ((caps.drop 1).headD [])
      else none }

/-- `_parse_eth_port_statuses`: one result dict per finditer match. -/
def parseEthPortStatuses (raw : List Char) : List EthPortStatus :=
  (finditerPattern ethPortToks (raw.length + 1) raw).map mkEthPortStatus

/-- The spec's example dump: one port at full-100 and unlocked, one port
with unknown speed and locked. -/
def ethExampleRaw : List Char :=
  ("Interface        : eth_0/1\nSpeed status     : full-100\nAdmin status     : unlock\nInterface        : eth_0/2\nSpeed status     : unknown\nAdmin status     : lock\n").data

/-- C8: every entry the parser emits comes from one Interface/Speed/Admin
capture triple, with is_unlocked true exactly when the admin capture equals
unlock (case-insensitively), lan_detected true exactly when the speed
capture shows a negotiated full- or half- rate (so neither for "unknown"
nor for "auto"), and speed_mbps the first number of the speed capture when
a rate is shown, None otherwise; on the spec's example dump this yields
full-100/unlocked/100 for eth_0/1 and unknown/locked/None for eth_0/2. -/
theorem C8_eth_port_status (raw : List Char) :
    (∀ (i : Nat) (caps : List (List Char)),
      (finditerPattern ethPortToks (raw.length + 1) raw)[i]? = some caps →
      ∃ e : EthPortStatus, (parseEthPortStatuses raw)[i]? = some e
        ∧ e.interface = caps.headD []
        ∧ (e.is_unlocked = true ↔ toLowerL ((caps.drop 2).headD []) = "unlock".data)
        ∧ e.speed_status = (caps.drop 1).headD []
        ∧ (e.lan_detected = true ↔
            (containsSubL "full-".data (toLowerL ((caps.drop 1).headD [])) = true
             ∨ containsSubL "half-".data (toLowerL ((caps.drop 1).headD [])) = true))
        ∧ e.speed_mbps = (if e.lan_detected then firstDigitRun ((caps.drop 1).headD [])
            else none))
    ∧ parseEthPortStatuses ethExampleRaw =
      [⟨"eth_0/1".data, true, "full-100".data, true, some 100⟩,
       ⟨"eth_0/2".data, false, "unknown".data, false, none⟩] := by
  constructor
  · intro i caps h
    refine ⟨mkEthPortStatus caps, ?_, rfl, ?_, rfl, ?_, rfl⟩
    · unfold parseEthPortStatuses
      rw [List.getElem?_map, h]
      rfl
    · simp [mkEthPortStatus]
    · simp [mkEthPortStatus, Bool.or_eq_true]
  · decide

/-- C8 witness: the first match of the example dump instantiates the
characterisation at the capture triple eth_0/1, full-100, unlock. -/
theorem C8_eth_port_status_witness :
    ∃ e, (parseEthPortStatuses ethExampleRaw)[0]? = some e
      ∧ e.interface = (["eth_0/1".data, "full-100".data, "unlock".data] : List (List Char)).headD []
      ∧ (e.is_unlocked = true ↔
          toLowerL ((["eth_0/1".data, "full-100".data, "unlock".data].drop 2).headD [])
            = "unlock".data)
      ∧ e.speed_status = (["eth_0/1".data, "full-100".data, "unlock".data].drop 1).headD []
      ∧ (e.lan_detected = true ↔
          (containsSubL "full-".data
              (toLowerL ((["eth_0/1".data, "full-100".data, "unlock".data].drop 1).headD [])) = true
           ∨ containsSubL "half-".data
              (toLowerL ((["eth_0/1".data, "full-100".data, "unlock".data].drop 1).headD [])) = true))
      ∧ e.speed_mbps = (if e.lan_detected then
          firstDigitRun ((["eth_0/1".data, "full-100".data, "unlock".data].drop 1).headD [])
          else none) := by
  exact (C8_eth_port_status ethExampleRaw).1 0
    ["eth_0/1".data, "full-100".data, "unlock".data] (by decide)

/-! ## C9: apply_configuration never propagates an exception

Embeds `TelnetClient.apply_configuration` (src/services/telnet.py lines
762-978).  The awaited sub-operations (find_unconfigured_onts,
find_next_available_onu_id, get_dba_rate, the OLT_OPTIONS vlan lookup whose
KeyError is a LookupError, the Jinja/yaml render, and _execute_command per
command) are supplied as an oracle of Except-valued outcomes, so every way
a step can raise one of Python's Exception subclasses is a value of the
model; asyncio.CancelledError derives from BaseException and is outside the
claim's own scope ("or other Exception"). -/

def PyExc.msg : PyExc → String
  | .lookupError m => m
  | .connectionError m => m
  | .timeoutError m => m
  | .valueError m => m
  | .runtimeError m => m
  | .otherError m => m

def PyExc.typeName : PyExc → String
  | .lookupError _ => "LookupError"
  | .connectionError _ => "ConnectionError"
  | .timeoutError _ => "TimeoutError"
  | .valueError _ => "ValueError"
  | .runtimeError _ => "RuntimeError"
  | .otherError _ => "Exception"

structure CustomerInfo where
  name : String
  address : String
  pppoe_user : String
  pppoe_pass : String

structure ConfigurationRequest where
  sn : String
  customer : CustomerInfo
  package : String
  modem_type : String
  eth_locks : List Bool

/-- One row of the unconfigured-ONT list. -/
structure UnconfiguredOnt where
  sn : String
  pon_slot : String
  pon_port : String

structure ConfigSummary where
  status : String
  message : String
  serial_number : String
  pppoe_user : String
  name : String
  location : String
  profile : String
  report : String

/-- The 57-character separator line of the textual reports. -/
def sepLine : String := String.mk (List.replicate 57 '=')

/-- PACKAGE_OPTIONS from src/core/olt_config.py. -/
def packageOptions : List (String × String) :=
  [("10M", "10MB"), ("15M", "15MB"), ("20M", "20MB"), ("25M", "25MB"), ("30M", "30MB"),
   ("35M", "35MB"), ("40M", "40MB"), ("50M", "50MB"), ("75M", "75MB"), ("100M", "100MB")]

/-- `PACKAGE_OPTIONS.get(package)`. -/
def packageLookup (k : String) : Option String :=
  (List.find? (fun e => e.1 == k) packageOptions).map (fun e => e.2)

def strReplace (pat repl s : String) : String := ⟨replaceAllL pat.data repl.data s.data⟩

def strContains (pat s : String) : Bool := containsSubL pat.data s.data

def strLower (s : String) : String := ⟨toLowerL s.data⟩

/-- The error sniffing on non-empty command output:
`"error" in output.lower() or "invalid" in output.lower() or "failed" in output.lower()`. -/
def flaggedOutput (output : String) : Bool :=
  !(output == "") && (strContains "error" (strLower output)
    || strContains "invalid" (strLower output) || strContains "failed" (strLower output))

/-- Oracle for the awaited sub-operations of apply_configuration. -/
structure OltEnv where
  findOnts : Except PyExc (List UnconfiguredOnt)
  nextOnuId : Except PyExc Nat
  dbaRate : Except PyExc ℚ
  vlanLookup : Except PyExc String
  renderCommands : Except PyExc (List String)
  execCommand : Nat → Except PyExc String
  isC600 : Bool

/-- The command-execution loop (telnet.py lines 858-868): log the command,
execute it, log non-empty output, and raise RuntimeError when the output
carries an error marker; a 0.3 second pacing sleep follows each command. -/
def execConfigLoop (env : OltEnv) (total : Nat) :
    List String → Nat → List String → String → List String × String × Except PyExc Unit
  | [], _, logs, step => (logs, step, .ok ())
  | cmd :: rest, idx, logs, _step =>
    let step2 := "Eksekusi command " ++ toString idx ++ "/" ++ toString total ++ ": "
      ++ cmd.take 50 ++ "..."
    let logs2 := logs ++ ["CMD > " ++ cmd]
    match env.execCommand idx with
    | .error e => (logs2, step2, .error e)
    | .ok output =>
      let logs3 := if output == "" then logs2 else logs2 ++ ["LOG < " ++ output]
      if flaggedOutput output then
        (logs3, step2, .error (.runtimeError ("OLT mengembalikan error pada command: "
          ++ cmd ++ "\n" ++ "Output: " ++ output)))
      else execConfigLoop env total rest (idx + 1) logs3 step2

/-- The try-body of apply_configuration: the logs built so far, the
current_step at exit, and either the success summary or the raised
exception. -/
def applyConfigurationBody (env : OltEnv) (req : ConfigurationRequest) :
    List String × String × Except PyExc ConfigSummary :=
  let step1 := "Mencari ONT unconfigured"
  let logs1 := ["STEP > " ++ step1 ++ "..."]
  match env.findOnts with
  | .error e => (logs1, step1, .error e)
  | .ok ontList =>
    match List.find? (fun o => o.sn == req.sn) ontList with
    | none =>
      (logs1, step1, .error (.lookupError ("ONT dengan SN '" ++ req.sn
        ++ "' tidak ditemukan di daftar unconfigured. Pastikan ONT sudah terpasang dan belum dikonfigurasi.")))
    | some target =>
      let logs2 := logs1 ++ ["INFO < ONT ditemukan: Slot " ++ target.pon_slot
        ++ ", Port " ++ target.pon_port]
      let _step2 := "Menyiapkan interface"
      let baseIface :=
        if env.isC600 then "gpon_olt-1/" ++ target.pon_port ++ "/" ++ target.pon_slot
        else "gpon-olt_1/" ++ target.pon_slot ++ "/" ++ target.pon_port
      let logs3 := logs2 ++ ["INFO < Base interface: " ++ baseIface]
      let step3 := "Mencari ONU ID kosong"
      let logs4 := logs3 ++ ["STEP > " ++ step3 ++ "..."]
      match env.nextOnuId with
      | .error e => (logs4, step3, .error e)
      | .ok onuId =>
        let logs5 := logs4 ++ ["INFO < ONU ID tersedia: " ++ toString onuId]
        let step4 := "Mengecek DBA rate"
        let logs6 := logs5 ++ ["STEP > " ++ step4 ++ "..."]
        match env.dbaRate with
        | .error e => (logs6, step4, .error e)
        | .ok rate =>
          let logs7 := logs6 ++ ["INFO < DBA Rate: " ++ toString rate ++ "%"]
          let step5 := "Menyiapkan profil"
          let upSuffix := if (75 : ℚ) < rate then "-MBW" else "-FIX"
          match packageLookup req.package with
          | none =>
            (logs7, step5, .error (.valueError ("Paket '" ++ req.package
              ++ "' tidak valid. Pilihan: " ++ toString (packageOptions.map (fun e => e.1)))))
          | some basePaket =>
            let upPaket := basePaket ++ upSuffix
            let downPaket := strReplace "MB" "M" basePaket
            let logs8 := logs7 ++ ["INFO < Profil: UP-" ++ upPaket ++ " / DOWN-" ++ downPaket]
            let _oltProfileType :=
              if req.modem_type == "F670L" then "ZTEG-F670"
              else if req.modem_type == "F609" then "ZTEG-F609" else "ALL"
            match env.vlanLookup with
            | .error e => (logs8, step5, .error e)
            | .ok _vlan =>
              let ifaceOnu :=
                if env.isC600 then
                  "gpon_onu-1/" ++ target.pon_port ++ "/" ++ target.pon_slot
                    ++ ":" ++ toString onuId
                else
                  "gpon-onu_1/" ++ target.pon_slot ++ "/" ++ target.pon_port
                    ++ ":" ++ toString onuId
              let _locks :=
                if req.eth_locks.length == 1 then
                  req.eth_locks ++ req.eth_locks ++ req.eth_locks ++ req.eth_locks
                else if req.eth_locks.length < 4 then
                  req.eth_locks ++ List.replicate (4 - req.eth_locks.length) false
                else req.eth_locks
              let step6 := "Render template konfigurasi"
              let logs9 := logs8 ++ ["STEP > " ++ step6 ++ "..."]
              match env.renderCommands with
              | .error e => (logs9, step6, .error e)
              | .ok commands =>
                let logs10 := logs9 ++ ["INFO < Template berhasil di-render. Total commands: "
                  ++ toString commands.length]
                let step7 := "Eksekusi perintah konfigurasi"
                let logs11 := logs10 ++ ["STEP > " ++ step7 ++ "..."]
                match execConfigLoop env commands.length commands 1 logs11 step7 with
                | (logsE, stepE, .error e) => (logsE, stepE, .error e)
                | (logsOk, _, .ok ()) =>
                  let logs12 := logsOk ++ ["STEP > Konfigurasi selesai!"]
                  let report := String.intercalate "\n"
                    [sepLine,
                     "              KONFIGURASI BERHASIL                       ",
                     sepLine,
                     "  Serial Number      : " ++ req.sn,
                     "  ID Pelanggan       : " ++ req.customer.pppoe_user,
                     "  Nama Pelanggan     : " ++ req.customer.name,
                     "  OLT dan ONU        : " ++ ifaceOnu,
                     "  Profil             : UP-" ++ upPaket ++ " / DOWN-" ++ downPaket,
                     sepLine]
                  (logs12, step7, .ok
                    { status := "success"
                      message := "Konfigurasi berhasil"
                      serial_number := req.sn
                      pppoe_user := req.customer.pppoe_user
                      name := req.customer.name
                      location := ifaceOnu
                      profile := "UP-" ++ upPaket ++ " / DOWN-" ++ downPaket
                      report := report })

/-- The LookupError except-branch summary. -/
def lookupErrorSummary (req : ConfigurationRequest) (step m : String) : ConfigSummary :=
  { status := "error"
    message := "Gagal: " ++ m
    serial_number := req.sn
    pppoe_user := req.customer.pppoe_user
    name := req.customer.name
    location := "-"
    profile := "-"
    report := String.intercalate "\n"
      [sepLine,
       "              KONFIGURASI GAGAL                          ",
       sepLine,
       "  Error Type         : ONT Tidak Ditemukan",
       "  Step               : " ++ step,
       "  Serial Number      : " ++ req.sn,
       "  Detail             : " ++ m,
       sepLine] }

/-- The ConnectionError / asyncio.TimeoutError except-branch summary. -/
def connTimeoutSummary (req : ConfigurationRequest) (step m : String) : ConfigSummary :=
  { status := "error"
    message := "Gagal: Koneksi timeout - " ++ m
    serial_number := req.sn
    pppoe_user := req.customer.pppoe_user
    name := req.customer.name
    location := "-"
    profile := "-"
    report := String.intercalate "\n"
      [sepLine,
       "              KONFIGURASI GAGAL                          ",
       sepLine,
       "  Error Type         : Koneksi / Timeout",
       "  Step               : " ++ step,
       "  Serial Number      : " ++ req.sn,
       "  Detail             : " ++ m,
       sepLine] }

/-- The generic Exception except-branch summary. -/
def genericErrorSummary (req : ConfigurationRequest) (step : String) (e : PyExc) : ConfigSummary :=
  { status := "error"
    message := "Gagal pada step '" ++ step ++ "': " ++ e.msg
    serial_number := req.sn
    pppoe_user := req.customer.pppoe_user
    name := req.customer.name
    location := "-"
    profile := "-"
    report := String.intercalate "\n"
      [sepLine,
       "              KONFIGURASI GAGAL                          ",
       sepLine,
       "  Error Type         : " ++ e.typeName,
       "  Step               : " ++ step,
       "  Serial Number      : " ++ req.sn,
       "  Detail             : " ++ e.msg,
       sepLine,
       "",
       "Silakan cek logs untuk detail lebih lanjut.",
       sepLine] }

/-- apply_configuration with its three except-clauses: LookupError first,
then ConnectionError/asyncio.TimeoutError, then Exception; every branch
returns a (logs, summary) pair. -/
def applyConfiguration (env : OltEnv) (req : ConfigurationRequest) :
    List String × ConfigSummary :=
  match applyConfigurationBody env req with
  | (logs, _, .ok summary) => (logs, summary)
  | (logs, step, .error (.lookupError m)) =>
    (logs ++ ["ERROR < " ++ m], lookupErrorSummary req step m)
  | (logs, step, .error (.connectionError m)) =>
    (logs ++ ["ERROR < Connection/Timeout: " ++ m], connTimeoutSummary req step m)
  | (logs, step, .error (.timeoutError m)) =>
    (logs ++ ["ERROR < Connection/Timeout: " ++ m], connTimeoutSummary req step m)
  | (logs, step, .error e) =>
    (logs ++ ["ERROR < " ++ e.typeName ++ ": " ++ e.msg], genericErrorSummary req step e)

theorem applyConfigurationBody_ok_status (env : OltEnv) (req : ConfigurationRequest) :
    ∀ logs step s, applyConfigurationBody env req = (logs, step, .ok s) →
      s.status = "success" := by
  intro logs step s h
  unfold applyConfigurationBody at h
  cases hf : env.findOnts with
  | error e => simp only [hf] at h; simp at h
  | ok ontList =>
  simp only [hf] at h
  cases hfind : List.find? (fun o => o.sn == req.sn) ontList with
  | none => simp only [hfind] at h; simp at h
  | some target =>
  simp only [hfind] at h
  cases hid : env.nextOnuId with
  | error e => simp only [hid] at h; simp at h
  | ok onuId =>
  simp only [hid] at h
  cases hrate : env.dbaRate with
  | error e => simp only [hrate] at h; simp at h
  | ok rate =>
  simp only [hrate] at h
  cases hpkg : packageLookup req.package with
  | none => simp only [hpkg] at h; simp at h
  | some bp =>
  simp only [hpkg] at h
  cases hvlan : env.vlanLookup with
  | error e => simp only [hvlan] at h; simp at h
  | ok v =>
  simp only [hvlan] at h
  cases hrender : env.renderCommands with
  | error e => simp only [hrender] at h; simp at h
  | ok cmds =>
  simp only [hrender] at h
  split at h
  · simp at h
  · simp only [Prod.mk.injEq, Except.ok.injEq] at h
    rw [← h.2.2]

theorem execConfigLoop_ok (env : OltEnv)
    (hexec : ∀ i, ∃ out, env.execCommand i = .ok out ∧ flaggedOutput out = false) :
    ∀ (cmds : List String) (total idx : Nat) (logs : List String) (step : String),
      ∃ logs2 step2, execConfigLoop env total cmds idx logs step = (logs2, step2, .ok ()) := by
  intro cmds
  induction cmds with
  | nil => intro total idx logs step; exact ⟨logs, step, rfl⟩
  | cons cmd rest ih =>
    intro total idx logs step
    obtain ⟨out, ho, hf⟩ := hexec idx
    have := ih total (idx + 1)
      (if out == "" then logs ++ ["CMD > " ++ cmd] else logs ++ ["CMD > " ++ cmd] ++ ["LOG < " ++ out])
      ("Eksekusi command " ++ toString idx ++ "/" ++ toString total ++ ": " ++ cmd.take 50 ++ "...")
    obtain ⟨logs2, step2, h2⟩ := this
    refine ⟨logs2, step2, ?_⟩
    unfold execConfigLoop
    rw [ho]
    simp only [hf, Bool.false_eq_true, if_false]
    exact h2

theorem execConfigLoop_no_error (env : OltEnv)
    (hexec : ∀ i, ∃ out, env.execCommand i = .ok out ∧ flaggedOutput out = false)
    (cmds : List String) (total idx : Nat) (logs : List String) (step : String)
    (logsE : List String) (stepE : String) (e : PyExc)
    (hcontra : execConfigLoop env total cmds idx logs step = (logsE, stepE, Except.error e)) :
    False := by
  obtain ⟨l2, s2, hok⟩ := execConfigLoop_ok env hexec cmds total idx logs step
  rw [hcontra] at hok
  simp at hok

/-- C9: apply_configuration is total over Exception-class failures: it
always returns a (logs, summary) pair whose status is success or error;
whenever any step of its body raises - LookupError, ConnectionError,
TimeoutError, ValueError, RuntimeError or any other Exception - the pair is
returned with status error; a serial number absent from the unconfigured
list surfaces that way through the LookupError branch, never as a raised
exception; when the body completes, its summary is returned unchanged with
status success; and when every step succeeds with clean output the status
is success. -/
theorem C9_apply_configuration (env : OltEnv) (req : ConfigurationRequest) :
    ((applyConfiguration env req).2.status = "success"
      ∨ (applyConfiguration env req).2.status = "error")
    ∧ (∀ logsB stepB e, applyConfigurationBody env req = (logsB, stepB, Except.error e) →
        (applyConfiguration env req).2.status = "error")
    ∧ (∀ logsB stepB sum, applyConfigurationBody env req = (logsB, stepB, Except.ok sum) →
        applyConfiguration env req = (logsB, sum) ∧ sum.status = "success")
    ∧ (∀ l, env.findOnts = .ok l → (∀ o ∈ l, o.sn ≠ req.sn) →
        (applyConfiguration env req).2.status = "error")
    ∧ (∀ l t bp v cmds (onuId : Nat) (rate : ℚ),
        env.findOnts = .ok l →
        List.find? (fun o => o.sn == req.sn) l = some t →
        env.nextOnuId = .ok onuId →
        env.dbaRate = .ok rate →
        packageLookup req.package = some bp →
        env.vlanLookup = .ok v →
        env.renderCommands = .ok cmds →
        (∀ i, ∃ out, env.execCommand i = .ok out ∧ flaggedOutput out = false) →
        (applyConfiguration env req).2.status = "success") := by
  refine ⟨?_, ?_, ?_, ?_, ?_⟩
  · unfold applyConfiguration
    rcases hbody : applyConfigurationBody env req with ⟨logs, step, res⟩
    cases res with
    | ok s =>
      left
      simpa using applyConfigurationBody_ok_status env req logs step s hbody
    | error e =>
      right
      cases e <;> rfl
  · intro logsB stepB e h
    unfold applyConfiguration
    rw [h]
    cases e <;> rfl
  · intro logsB stepB sum h
    unfold applyConfiguration
    rw [h]
    exact ⟨rfl, applyConfigurationBody_ok_status env req logsB stepB sum h⟩
  · intro l hf hno
    have hfind : List.find? (fun o => o.sn == req.sn) l = none := by
      rw [List.find?_eq_none]
      intro o ho
      simpa using hno o ho
    unfold applyConfiguration applyConfigurationBody
    rw [hf]
    simp only [hfind]
    rfl
  · intro l t bp v cmds onuId rate hf hfind hid hrate hpkg hvlan hrender hexec
    unfold applyConfiguration
    rcases hbody : applyConfigurationBody env req with ⟨logsB, stepB, resB⟩
    cases resB with
    | ok s =>
      have hst := applyConfigurationBody_ok_status env req logsB stepB s hbody
      simpa using hst
    | error e =>
      exfalso
      unfold applyConfigurationBody at hbody
      simp only [hf, hfind, hid, hrate, hpkg, hvlan, hrender] at hbody
      split at hbody
      · rename_i heq
        exact execConfigLoop_no_error env hexec _ _ _ _ _ _ _ _ heq
      · simp at hbody

/-- Concrete oracle for the C9 witness: every step succeeds. -/
def c9Env : OltEnv :=
  { findOnts := .ok [⟨"ZTEGC1234567", "3", "4"⟩]
    nextOnuId := .ok 5
    dbaRate := .ok 50
    vlanLookup := .ok "901"
    renderCommands := .ok ["configure terminal", "interface gpon-olt_1/3/4"]
    execCommand := fun _ => .ok ""
    isC600 := false }

def c9Req : ConfigurationRequest :=
  { sn := "ZTEGC1234567"
    customer := { name := "Budi", address := "Tulungagung", pppoe_user := "budi01",
                  pppoe_pass := "rahasia" }
    package := "20M"
    modem_type := "F609"
    eth_locks := [true] }

/-- Oracle whose ONU-ID step raises a ConnectionError, for the C9 witness. -/
def c9FailEnv : OltEnv := { c9Env with nextOnuId := .error (.connectionError "Timeout during login") }

/-- C9 witness: with a found serial number and clean command executions the
returned summary has status success; with the serial number absent from the
unconfigured list the same call returns a pair with status error instead of
raising; and a ConnectionError raised mid-body also comes back as a pair
with status error. -/
theorem C9_apply_configuration_witness :
    (applyConfiguration c9Env c9Req).2.status = "success"
    ∧ (applyConfiguration { c9Env with findOnts := .ok [] } c9Req).2.status = "error"
    ∧ (applyConfiguration c9FailEnv c9Req).2.status = "error" := by
  refine ⟨?_, ?_, ?_⟩
  · exact (C9_apply_configuration c9Env c9Req).2.2.2.2
      [⟨"ZTEGC1234567", "3", "4"⟩] ⟨"ZTEGC1234567", "3", "4"⟩ "20MB" "901"
      ["configure terminal", "interface gpon-olt_1/3/4"] 5 50
      rfl (by rfl) rfl rfl (by rfl) rfl rfl (fun _ => ⟨"", rfl, rfl⟩)
  · exact (C9_apply_configuration { c9Env with findOnts := .ok [] } c9Req).2.2.2.1 [] rfl
      (by simp)
  · exact (C9_apply_configuration c9FailEnv c9Req).2.1
      ["STEP > Mencari ONT unconfigured...",
       "INFO < ONT ditemukan: Slot 3, Port 4",
       "INFO < Base interface: gpon-olt_1/3/4",
       "STEP > Mencari ONU ID kosong..."]
      "Mencari ONU ID kosong" (.connectionError "Timeout during login") (by rfl)

end Spec2Proof
